import Mathlib

/-! Verification of the name-resolution and caching layer of `ecs_mcp`
(`src/ecs_mcp/client.py`), shallowly embedded in Lean 4.

The embedding covers:
  * `find_best_match_basic` — the deterministic heuristic matcher;
  * `get_all_clusters_and_services` — the TTL-bounded topology snapshot cache;
  * `find_matching_names` — the resolver: resolution cache, prompt building,
    semantic-matcher invocation (modelled as an oracle), repair pass,
    exception fallback.

Conventions: machine state is passed explicitly; the LLM and the upstream
AWS listing are oracles supplied as parameters; Python exceptions are
modelled with `Except`; Python's `None`-or-string-or-list values (the
`response` dict fields can hold all three) are modelled by `PyVal`.
-/

namespace EcsMcp

/-- A Python value that can appear in the resolver's `response` dict fields:
`None`, a string, or a list of strings (the latter arises from the buggy
repair pass that assigns `cluster_service_map.get(service)`, a service list,
to `cluster_name`). -/
inductive PyVal where
  | vNone : PyVal
  | vStr (s : String) : PyVal
  | vList (l : List String) : PyVal
deriving DecidableEq, Repr

/-- Python truthiness for `PyVal`: `None` is falsy, a string is truthy iff
nonempty, a list is truthy iff nonempty. -/
def PyVal.truthy : PyVal → Bool
  | .vNone => false
  | .vStr s => s ≠ ""
  | .vList l => !l.isEmpty

/-- Truthiness of an optional string argument (Python `if cluster_name:`). -/
def optTruthy : Option String → Bool
  | none => false
  | some s => s ≠ ""

/-- Convert the matcher's parsed JSON field (`matches.get(...)`: `None` or a
string) into a `PyVal`. -/
def toPyVal : Option String → PyVal
  | none => .vNone
  | some s => .vStr s

/-- Python f-string interpolation of an optional string: `None` renders as
the literal text `"None"`. -/
def pyShow : Option String → String
  | none => "None"
  | some s => s

/-- The topology: the ordered `cluster_services` dict mapping each cluster
name to its list of service names. -/
abbrev Topology := List (String × List String)

/-- Python `dict.get(k)` on the cluster-services map: first binding wins. -/
def dlookup (m : Topology) (k : String) : Option (List String) :=
  (m.find? (fun p => p.1 == k)).map Prod.snd

/-- The cluster names, in insertion order (`cluster_service_map.keys()`). -/
def topoKeys (m : Topology) : List String := m.map Prod.fst

/-- Result of Python's `dict.get` assigned into `response["cluster_name"]`:
`None` stays `None`, a hit stores the whole service list. -/
def pyOfSvcList : Option (List String) → PyVal
  | none => .vNone
  | some l => .vList l

/-- Whether `needle` is a prefix of `hay` (on character lists). -/
def charsPre : List Char → List Char → Bool
  | [], _ => true
  | _ :: _, [] => false
  | a :: as, b :: bs => a == b && charsPre as bs

/-- Whether `needle` occurs contiguously inside `hay` (on character lists). -/
def charsSub (needle : List Char) : List Char → Bool
  | [] => charsPre needle []
  | b :: bs => charsPre needle (b :: bs) || charsSub needle bs

/-- Python's substring test `needle in hay`. -/
def strContainsSub (hay needle : String) : Bool :=
  charsSub needle.toList hay.toList

/-- Insert `x` into `acc` after every element of length `≤ x.length`
(the insertion step of a stable insertion sort by string length). -/
def insLen (x : String) : List String → List String
  | [] => [x]
  | y :: ys => if y.length ≤ x.length then y :: insLen x ys else x :: y :: ys

/-- Stable sort by string length, processing elements left to right:
the result of Python's stable `partial_matches.sort(key=len)`. -/
def sortLen (l : List String) : List String :=
  l.foldl (fun acc x => insLen x acc) []

/-- Character-wise lowercasing (Python `str.lower()`; extensionally the
same map over characters as `String.toLower`, stated this way so that it
reduces in the kernel). -/
def strLower (s : String) : String := String.mk (s.toList.map Char.toLower)

/-- The function `find_best_match_basic` of `client.py`: the deterministic heuristic
matcher. Empty target or empty candidate list gives `none`; a
case-insensitive exact match returns the first such candidate; otherwise the
bidirectional case-insensitive substring matches are collected, stably
sorted by length, and the first is returned; otherwise `none`. -/
def find_best_match_basic (target : String) (candidates : List String) :
    Option String :=
  if target = "" || candidates.isEmpty then none
  else
    match candidates.find? (fun c => strLower c == strLower target) with
    | some c => some c
    | none =>
      match sortLen (candidates.filter (fun c =>
          strContainsSub (strLower c) (strLower target) ||
          strContainsSub (strLower target) (strLower c))) with
      | [] => none
      | m :: _ => some m

/-- The first element of minimal length of a list, scanning in original
order and replacing the running best only on a strictly shorter element
("shortest, ties broken by original ordering"). -/
def firstMin : List String → Option String
  | [] => none
  | x :: xs => some (xs.foldl (fun b c => if c.length < b.length then c else b) x)

/-- The heuristic matcher as worded by the spec (§4.3): rules applied in
order — empty inputs give null; first case-insensitive exact match;
otherwise the shortest bidirectional substring match, ties broken by
original ordering; otherwise null. -/
def bestMatchSpec (target : String) (candidates : List String) :
    Option String :=
  if target = "" || candidates.isEmpty then none
  else
    match candidates.find? (fun c => strLower c == strLower target) with
    | some c => some c
    | none =>
      firstMin (candidates.filter (fun c =>
        strContainsSub (strLower c) (strLower target) ||
        strContainsSub (strLower target) (strLower c)))

/-- The topology-refresh TTL from `client.py` (`"cache_ttl": 300`). -/
def cacheTtl : Int := 300

/-- The method `get_all_clusters_and_services` of `client.py`. The upstream (AWS
list-clusters plus the paginated list-services loop, already reduced to
short names) is an oracle that either yields a topology or raises. Returns
the result (topology or structured error message), the updated topology
cache (`data`/`timestamp` pair), and the number of list-clusters
invocations performed. On a fresh cache hit nothing upstream is called; on
a refresh failure the error is returned and the cache is left untouched. -/
def get_all_clusters_and_services (upstream : Except String Topology)
    (now : Int) (cache : Option (Topology × Int)) :
    Except String Topology × Option (Topology × Int) × Nat :=
  match cache with
  | some (data, ts) =>
    if now - ts < cacheTtl then (Except.ok data, cache, 0)
    else
      match upstream with
      | .ok topo => (Except.ok topo, some (topo, now), 1)
      | .error e =>
        (Except.error ("Failed to get clusters and services: " ++ e), cache, 1)
  | none =>
    match upstream with
    | .ok topo => (Except.ok topo, some (topo, now), 1)
    | .error e =>
      (Except.error ("Failed to get clusters and services: " ++ e), none, 1)

/-- The fixed instruction block appended to the matching prompt
(`client.py`, the triple-quoted string inside `find_matching_names`). -/
def matcherInstructions : String :=
  "\n    Please analyze the above information and provide:\n" ++
  "    1. The best matching cluster name (if cluster search was provided)\n" ++
  "    2. The best matching service name (if service search was provided)\n" ++
  "    3. Consider:\n" ++
  "    - Exact matches\n" ++
  "    - Partial matches\n" ++
  "    - Common naming patterns\n" ++
  "    - Environment prefixes/suffixes\n" ++
  "    - Service type indicators\n" ++
  "    4. The service name should be part of the cluster name you are finding.\n" ++
  "\n" ++
  "    Format your response as a JSON object with:\n" ++
  "    \x7b\n" ++
  "        \"cluster_name\": \"best matching cluster name or null\",\n" ++
  "        \"service_name\": \"best matching service name or null\"\n" ++
  "    \x7d\n" ++
  "    "

/-- The part of the matching prompt preceding the instruction block: the
cluster/service inventory and the search criteria (absent or empty query
fields omitted). -/
def buildPromptBody (cmap : Topology)
    (cluster_name service_name : Option String) : String :=
  let p := "Given the following ECS clusters and their services, find the best matching names:\n\n"
  let p := p ++ "Available clusters and services:\n"
  let p := cmap.foldl (fun acc entry =>
    let acc := acc ++ "- Cluster: " ++ entry.1 ++ "\n" ++ "  Services:\n"
    let acc := entry.2.foldl (fun a s => a ++ "  - " ++ s ++ "\n") acc
    acc ++ "\n") p
  let p := p ++ "\nSearch criteria:\n"
  let p := if optTruthy cluster_name then
      p ++ "- Looking for cluster similar to: " ++ pyShow cluster_name ++ "\n"
    else p
  if optTruthy service_name then
    p ++ "- Looking for service similar to: " ++ pyShow service_name ++ "\n"
  else p

/-- The matching prompt built by `find_matching_names`: the inventory and
search criteria followed by the instruction block. -/
def buildPrompt (cmap : Topology) (cluster_name service_name : Option String) :
    String :=
  buildPromptBody cmap cluster_name service_name ++ matcherInstructions

/-- Python's `json.dumps(xs, indent=2)` on a list of strings. -/
def jsonDumpsList : List String → String
  | [] => "[]"
  | xs => "[\n" ++ String.intercalate ",\n" (xs.map (fun s => "  \"" ++ s ++ "\"")) ++ "\n]"

/-- The second, cluster-scoped service-matching prompt of
`find_matching_names`. -/
def buildServicePrompt (cluster : String) (service_name : String)
    (cluster_services : List String) : String :=
  "\n    Given the following services in cluster " ++ cluster ++
  ", find the best matching service for \"" ++ service_name ++ "\":\n\n" ++
  "    Available services:\n    " ++ jsonDumpsList cluster_services ++
  "\n\n    Format your response as a JSON object with:\n" ++
  "    \x7b\x7b\n        \"service_name\": \"best matching service name or null\"\n    \x7d\x7d\n    "

/-- The outcome of one awaited semantic-matcher invocation, as observed by
`find_matching_names` after `json.loads(...)` and `.get(...)`: either some
exception was raised (transport fault, non-object JSON, ...) or a pair of
optional string fields was obtained. -/
inductive LlmOutcome where
  | raises : LlmOutcome
  | returns (cluster_name service_name : Option String) : LlmOutcome

/-- The `response` dict of `find_matching_names`. -/
structure Response where
  status : String
  cluster_name : PyVal
  service_name : PyVal
deriving DecidableEq, Repr

/-- The string field held by a truthy `PyVal.vStr` (used where the source
is known to hold a string). -/
def PyVal.strVal : PyVal → String
  | .vStr s => s
  | _ => ""

/-- The `except` handler of `find_matching_names` (lines 395-405): heuristic
matching for the cluster over the cluster names, then for the service over
the matched cluster's services (direct `cluster_service_map[...]`
indexing, which raises `KeyError` on a missing key and `TypeError` on a
list-valued `cluster_name`) or over the cluster names when no cluster is
set. `Except.error` models an exception escaping the handler to the outer
`except`. -/
def fallbackHandler (cmap : Topology) (cluster_name service_name : Option String)
    (resp : Response) : Except String Response :=
  let resp :=
    if optTruthy cluster_name then
      let bm := toPyVal (find_best_match_basic (pyShow cluster_name) (topoKeys cmap))
      { resp with cluster_name := bm }
    else resp
  if optTruthy service_name then
    if resp.cluster_name.truthy then
      match resp.cluster_name with
      | .vStr c =>
        match dlookup cmap c with
        | some svcs =>
          let bm := toPyVal (find_best_match_basic (pyShow service_name) svcs)
          Except.ok { resp with service_name := bm }
        | none => Except.error ("KeyError: " ++ c)
      | .vList _ => Except.error "TypeError: unhashable type: list"
      | .vNone => Except.ok resp
    else
      let bm := toPyVal (find_best_match_basic (pyShow service_name) (topoKeys cmap))
      Except.ok { resp with service_name := bm }
  else Except.ok resp

/-- The body of `find_matching_names` after the topology was obtained: the
inner `try` (matcher invocation, repair pass, optional second scoped
matcher invocation, cache store) with its `except` fallback. Returns the
result (`Except.error` models an exception escaping to the outer `except`),
the entry stored into the resolution cache if any, and the number of
semantic-matcher invocations. -/
def fmnCore (llm : String → LlmOutcome) (cmap : Topology)
    (cluster_name service_name : Option String) :
    Except String Response × Option Response × Nat :=
  let response0 : Response := ⟨"success", PyVal.vNone, PyVal.vNone⟩
  let prompt := buildPrompt cmap cluster_name service_name
  match llm prompt with
  | .raises =>
    (fallbackHandler cmap cluster_name service_name response0, none, 1)
  | .returns mc ms =>
    let r1 : Response :=
      { response0 with cluster_name := toPyVal mc, service_name := toPyVal ms }
    let r2 : Response :=
      if r1.service_name.truthy && !r1.cluster_name.truthy then
        { r1 with cluster_name := pyOfSvcList (dlookup cmap r1.service_name.strVal) }
      else r1
    if r2.cluster_name.truthy && optTruthy service_name && !r2.service_name.truthy then
      match r2.cluster_name with
      | .vStr c =>
        let cluster_services := (dlookup cmap c).getD []
        let sprompt := buildServicePrompt c (pyShow service_name) cluster_services
        match llm sprompt with
        | .raises => (fallbackHandler cmap cluster_name service_name r2, none, 2)
        | .returns _ ms2 =>
          let r3 : Response := { r2 with service_name := toPyVal ms2 }
          (Except.ok r3, some r3, 2)
      | _ =>
        -- `cluster_service_map.get(response["cluster_name"], [])` with a
        -- list-valued key raises TypeError before any second matcher call
        (fallbackHandler cmap cluster_name service_name r2, none, 1)
    else
      (Except.ok r2, some r2, 1)

/-- The mutable state of `ECSClient` relevant to resolution: the resolution
cache `_name_matching_cache` (as an association list in insertion order)
and the topology cache `_clusters_services_cache` (`data`/`timestamp`). -/
structure ClientState where
  name_matching_cache : List (String × Response)
  topo_cache : Option (Topology × Int)
deriving Repr

/-- What `find_matching_names` returns: the response dict, the error dict
of a failed topology refresh (`{"error": ..., "status": "error"}`), or the
outer-`except` error dict (`{"status": "error", "message": ...}`). -/
inductive FMNResult where
  | ok (r : Response) : FMNResult
  | upstreamError (msg : String) : FMNResult
  | outerError (msg : String) : FMNResult
deriving DecidableEq, Repr

/-- A full observation of one `find_matching_names` call: its return value,
the state afterwards, the number of semantic-matcher invocations and the
number of upstream list-clusters invocations. -/
structure FMNOut where
  result : FMNResult
  state : ClientState
  llmCalls : Nat
  listClustersCalls : Nat

/-- The resolution cache key: the Python f-string
`f"{cluster_name}:{service_name}"`, where an absent field interpolates as
the literal text `None`. -/
def cacheKey (cluster_name service_name : Option String) : String :=
  pyShow cluster_name ++ ":" ++ pyShow service_name

/-- Resolution-cache lookup (`cache_key in self._name_matching_cache`). -/
def cacheFind (cache : List (String × Response)) (key : String) :
    Option Response :=
  (cache.find? (fun p => p.1 == key)).map Prod.snd

/-- The method `find_matching_names` of `client.py`, the resolver entry point:
resolution-cache check, topology fetch (propagating a refresh error
untouched and uncached), then the matcher/repair/fallback core, appending
to the resolution cache exactly the entry the core stored. -/
def find_matching_names (llm : String → LlmOutcome)
    (upstream : Except String Topology) (now : Int) (st : ClientState)
    (cluster_name service_name : Option String) : FMNOut :=
  let key := cacheKey cluster_name service_name
  match cacheFind st.name_matching_cache key with
  | some r => ⟨.ok r, st, 0, 0⟩
  | none =>
    match get_all_clusters_and_services upstream now st.topo_cache with
    | (allInfo, tc, lc) =>
      let st' : ClientState := ⟨st.name_matching_cache, tc⟩
      match allInfo with
      | .error msg => ⟨.upstreamError msg, st', 0, lc⟩
      | .ok cmap =>
        match fmnCore llm cmap cluster_name service_name with
        | (res, entry, llmCalls) =>
          let ncache := match entry with
            | some r => st.name_matching_cache ++ [(key, r)]
            | none => st.name_matching_cache
          let st'' : ClientState := ⟨ncache, tc⟩
          match res with
          | .ok r => ⟨.ok r, st'', llmCalls, lc⟩
          | .error m =>
            ⟨.outerError ("Failed to find matching names: " ++ m), st'', llmCalls, lc⟩

/-! Lemmas about the heuristic matcher. -/

theorem head_foldl_insLen (l : List String) : ∀ y ys,
    (l.foldl (fun acc x => insLen x acc) (y :: ys)).head?
      = some (l.foldl (fun b c => if c.length < b.length then c else b) y) := by
  induction l with
  | nil => intro y ys; rfl
  | cons x xs ih =>
    intro y ys
    show ((xs.foldl (fun acc x => insLen x acc) (insLen x (y :: ys)))).head? = _
    by_cases h : y.length ≤ x.length
    · have hins : insLen x (y :: ys) = y :: insLen x ys := by
        simp [insLen, h]
      have hg : (if x.length < y.length then x else y) = y := by
        simp [Nat.not_lt.mpr h]
      rw [hins, ih y (insLen x ys)]
      simp [hg]
    · have hlt : x.length < y.length := Nat.lt_of_not_le h
      have hins : insLen x (y :: ys) = x :: y :: ys := by
        simp [insLen, h]
      have hg : (if x.length < y.length then x else y) = x := by
        simp [hlt]
      rw [hins, ih x (y :: ys)]
      simp [hg]

theorem head_sortLen_eq_firstMin (l : List String) :
    (sortLen l).head? = firstMin l := by
  cases l with
  | nil => rfl
  | cons c cs =>
    show ((cs.foldl (fun acc x => insLen x acc) (insLen c []))).head? = _
    rw [show insLen c [] = [c] from rfl]
    rw [head_foldl_insLen cs c []]
    rfl

theorem mem_insLen {a x : String} : ∀ {l : List String},
    a ∈ insLen x l → a = x ∨ a ∈ l := by
  intro l
  induction l with
  | nil => intro h; simp [insLen] at h; exact Or.inl h
  | cons y ys ih =>
    intro h
    by_cases hc : y.length ≤ x.length
    · simp only [insLen, if_pos hc, List.mem_cons] at h
      rcases h with h | h
      · exact Or.inr (by simp [h])
      · rcases ih h with h' | h'
        · exact Or.inl h'
        · exact Or.inr (by simp [h'])
    · simp only [insLen, if_neg hc, List.mem_cons] at h
      rcases h with h | h
      · exact Or.inl h
      · exact Or.inr (by simpa using h)

theorem mem_foldl_insLen {a : String} : ∀ (l acc : List String),
    a ∈ l.foldl (fun acc x => insLen x acc) acc → a ∈ acc ∨ a ∈ l := by
  intro l
  induction l with
  | nil => intro acc h; exact Or.inl h
  | cons x xs ih =>
    intro acc h
    rcases ih (insLen x acc) h with h' | h'
    · rcases mem_insLen h' with h'' | h''
      · exact Or.inr (by simp [h''])
      · exact Or.inl h''
    · exact Or.inr (by simp [h'])

theorem mem_sortLen {a : String} {l : List String} (h : a ∈ sortLen l) :
    a ∈ l := by
  rcases mem_foldl_insLen l [] h with h' | h'
  · cases h'
  · exact h'

theorem find_best_match_basic_mem {t m : String} {cs : List String}
    (h : find_best_match_basic t cs = some m) : m ∈ cs := by
  unfold find_best_match_basic at h
  split at h
  · cases h
  · split at h
    · rename_i c hfind
      cases h
      exact List.mem_of_find?_eq_some hfind
    · split at h
      · cases h
      · rename_i m' rest hsort
        cases h
        have hmem : m ∈ sortLen (cs.filter (fun c =>
            strContainsSub (strLower c) (strLower t) ||
            strContainsSub (strLower t) (strLower c))) := by
          rw [hsort]; exact List.mem_cons_self _ _
        exact List.mem_of_mem_filter (mem_sortLen hmem)

/-- C5. The heuristic matcher `find_best_match_basic` satisfies, in order:
empty target or empty candidate list gives null; otherwise the first
case-insensitive exact match; otherwise the shortest bidirectional
case-insensitive substring match with ties broken by original ordering;
otherwise null (captured by `bestMatchSpec`, worded from the spec), and the
three concrete examples of the spec evaluate as stated. -/
theorem c5_best_match_spec :
    (∀ (t : String) (cs : List String),
        find_best_match_basic t cs = bestMatchSpec t cs) ∧
    find_best_match_basic "test-cluster-1"
        ["test-cluster-1", "test-cluster-2", "other"] = some "test-cluster-1" ∧
    find_best_match_basic "test"
        ["test-cluster-1", "test-cluster-2", "other"] = some "test-cluster-1" ∧
    find_best_match_basic "nonexistent"
        ["test-cluster-1", "test-cluster-2", "other"] = none := by
  refine ⟨?_, by decide, by decide, by decide⟩
  intro t cs
  unfold find_best_match_basic bestMatchSpec
  split
  · rfl
  · split
    · rfl
    · rw [show ∀ l : List String,
          (match sortLen l with | [] => none | m :: _ => some m) = (sortLen l).head?
          from fun l => by cases sortLen l <;> rfl]
      rw [head_sortLen_eq_firstMin]

/-! Lemmas about the resolver. -/

theorem fmn_cache_hit (llm : String → LlmOutcome)
    (upstream : Except String Topology) (now : Int) (st : ClientState)
    (c s : Option String) (r : Response)
    (h : cacheFind st.name_matching_cache (cacheKey c s) = some r) :
    find_matching_names llm upstream now st c s = ⟨.ok r, st, 0, 0⟩ := by
  simp only [find_matching_names, h]

theorem cacheFind_append_self (cache : List (String × Response)) (k : String)
    (r : Response) (h : cacheFind cache k = none) :
    cacheFind (cache ++ [(k, r)]) k = some r := by
  unfold cacheFind at *
  induction cache with
  | nil => simp [List.find?]
  | cons p ps ih =>
    rw [List.cons_append, List.find?]
    rw [List.find?] at h
    cases hb : (p.1 == k) with
    | true => rw [hb] at h; simp at h
    | false =>
      rw [hb] at h
      simp only [Option.map_eq_none] at *
      exact ih h

theorem cacheFind_nil (k : String) : cacheFind [] k = none := rfl

theorem cacheFind_singleton_ne (k k' : String) (r : Response) (h : k ≠ k') :
    cacheFind [(k, r)] k' = none := by
  unfold cacheFind
  rw [List.find?]
  rw [show (((k, r) : String × Response).1 == k') = false from by simp [h]]
  rfl

theorem dlookup_of_mem_topoKeys {cmap : Topology} {k : String}
    (h : k ∈ topoKeys cmap) : ∃ svcs, dlookup cmap k = some svcs := by
  induction cmap with
  | nil => cases h
  | cons p rest ih =>
    unfold topoKeys at h
    rw [List.map_cons, List.mem_cons] at h
    by_cases he : p.1 = k
    · exact ⟨p.2, by simp [dlookup, List.find?, he]⟩
    · rcases h with h | h
      · exact absurd h.symm he
      · rcases ih h with ⟨svcs, hsv⟩
        refine ⟨svcs, ?_⟩
        unfold dlookup at *
        rw [List.find?]
        rw [show (p.1 == k) = false from by simp [he]]
        exact hsv

/-- The success path of the resolver with a matcher reply carrying both a
nonempty cluster and a nonempty service: the reply is adopted verbatim,
cached under the input key, and the call costs one matcher invocation and
one list-clusters invocation. -/
theorem fmn_success_path (llm : String → LlmOutcome) (cmap : Topology)
    (st : ClientState) (now : Int) (c s : Option String) (cl sv : String)
    (hmiss : cacheFind st.name_matching_cache (cacheKey c s) = none)
    (htopo : st.topo_cache = none)
    (hllm : llm (buildPrompt cmap c s) = .returns (some cl) (some sv))
    (hcl : cl ≠ "") (hsv : sv ≠ "") :
    find_matching_names llm (Except.ok cmap) now st c s =
      ⟨.ok ⟨"success", .vStr cl, .vStr sv⟩,
       ⟨st.name_matching_cache ++ [(cacheKey c s, ⟨"success", .vStr cl, .vStr sv⟩)],
        some (cmap, now)⟩, 1, 1⟩ := by
  simp only [find_matching_names, hmiss, htopo, get_all_clusters_and_services,
    fmnCore, hllm, toPyVal, PyVal.truthy]
  simp [hsv, hcl]

/-- The exception handler applied to the untouched initial response never
raises: the cluster heuristic returns either nothing or a key of the
topology, so the service lookup cannot fail. -/
theorem fallbackHandler_fresh_ok (cmap : Topology) (c s : Option String) :
    ∃ r : Response,
      fallbackHandler cmap c s ⟨"success", .vNone, .vNone⟩ = .ok r ∧
      r.status = "success" := by
  unfold fallbackHandler
  by_cases hc : optTruthy c = true
  · rw [if_pos hc]
    cases hbm : find_best_match_basic (pyShow c) (topoKeys cmap) with
    | none =>
      simp only [toPyVal]
      by_cases hs : optTruthy s = true
      · rw [if_pos hs]
        exact ⟨_, rfl, rfl⟩
      · rw [if_neg hs]
        exact ⟨_, rfl, rfl⟩
    | some m =>
      simp only [toPyVal]
      by_cases hs : optTruthy s = true
      · rw [if_pos hs]
        by_cases hm : m = ""
        · subst hm
          rw [show PyVal.truthy (.vStr "") = false from by decide]
          simp only [Bool.false_eq_true, if_false]
          exact ⟨_, rfl, rfl⟩
        · have htr : PyVal.truthy (.vStr m) = true := by
            simp [PyVal.truthy, hm]
          rw [htr]
          simp only [if_true]
          rcases dlookup_of_mem_topoKeys (find_best_match_basic_mem hbm) with ⟨svcs, hl⟩
          rw [hl]
          exact ⟨_, rfl, rfl⟩
      · rw [if_neg hs]
        exact ⟨_, rfl, rfl⟩
  · rw [if_neg hc]
    by_cases hs : optTruthy s = true
    · rw [if_pos hs]
      exact ⟨_, rfl, rfl⟩
    · rw [if_neg hs]
      exact ⟨_, rfl, rfl⟩

/-- A resolve call whose first matcher invocation raises: the handler's
result is returned, the resolution cache is left unchanged, the topology
cache is refreshed, one matcher and one list-clusters call happen. -/
theorem fmn_first_raises (llm : String → LlmOutcome) (cmap : Topology)
    (st : ClientState) (now : Int) (c s : Option String)
    (hmiss : cacheFind st.name_matching_cache (cacheKey c s) = none)
    (htopo : st.topo_cache = none)
    (hllm : llm (buildPrompt cmap c s) = .raises) :
    ∃ r : Response,
      fallbackHandler cmap c s ⟨"success", .vNone, .vNone⟩ = .ok r ∧
      find_matching_names llm (Except.ok cmap) now st c s =
        ⟨.ok r, ⟨st.name_matching_cache, some (cmap, now)⟩, 1, 1⟩ ∧
      r.status = "success" := by
  rcases fallbackHandler_fresh_ok cmap c s with ⟨r, hr, hst⟩
  refine ⟨r, hr, ?_, hst⟩
  simp only [find_matching_names, hmiss, htopo, get_all_clusters_and_services,
    fmnCore, hllm, hr]

/-- On a resolution-cache miss the list-clusters count and the new topology
cache come straight from `get_all_clusters_and_services`, and the
resolution cache either stays as it was or gains exactly the one entry for
the queried key. -/
theorem fmn_miss_shape (llm : String → LlmOutcome)
    (upstream : Except String Topology) (now : Int) (st : ClientState)
    (c s : Option String)
    (hmiss : cacheFind st.name_matching_cache (cacheKey c s) = none) :
    (find_matching_names llm upstream now st c s).listClustersCalls
        = (get_all_clusters_and_services upstream now st.topo_cache).2.2 ∧
    (find_matching_names llm upstream now st c s).state.topo_cache
        = (get_all_clusters_and_services upstream now st.topo_cache).2.1 ∧
    ((find_matching_names llm upstream now st c s).state.name_matching_cache
        = st.name_matching_cache ∨
      ∃ r : Response,
        (find_matching_names llm upstream now st c s).state.name_matching_cache
          = st.name_matching_cache ++ [(cacheKey c s, r)]) := by
  simp only [find_matching_names, hmiss]
  rcases hga : get_all_clusters_and_services upstream now st.topo_cache with
    ⟨allInfo, tc, lc⟩
  cases allInfo with
  | error m => exact ⟨rfl, rfl, Or.inl rfl⟩
  | ok cmap =>
    rcases hcore : fmnCore llm cmap c s with ⟨res, entry, k⟩
    cases entry with
    | none =>
      cases res with
      | ok r => exact ⟨by simp [hcore], by simp [hcore], Or.inl (by simp [hcore])⟩
      | error m => exact ⟨by simp [hcore], by simp [hcore], Or.inl (by simp [hcore])⟩
    | some r =>
      cases res with
      | ok r' => exact ⟨by simp [hcore], by simp [hcore], Or.inr ⟨r, by simp [hcore]⟩⟩
      | error m => exact ⟨by simp [hcore], by simp [hcore], Or.inr ⟨r, by simp [hcore]⟩⟩

theorem strToList_append (a b : String) :
    (a ++ b).toList = a.toList ++ b.toList := by
  cases a; cases b; rfl

theorem charsSub_append_right (n : List Char) : ∀ (a b : List Char),
    charsSub n b = true → charsSub n (a ++ b) = true := by
  intro a
  induction a with
  | nil => intro b h; simpa using h
  | cons x xs ih =>
    intro b h
    rw [List.cons_append]
    show (charsPre n (x :: (xs ++ b)) || charsSub n (xs ++ b)) = true
    rw [ih b h]
    simp

theorem strContainsSub_append_right (a b needle : String)
    (h : strContainsSub b needle = true) :
    strContainsSub (a ++ b) needle = true := by
  unfold strContainsSub at *
  rw [strToList_append]
  exact charsSub_append_right _ _ _ h

/-! Claim theorems. -/

/-- C1 counterexample: with topology `cluster-A ↦ [svc-1]`, `cluster-B ↦
[svc-2]` and a matcher reply of `cluster-B`/`svc-1`, the resolver returns
both names non-null although `svc-1` is not in `cluster-B`'s service list —
the claimed membership invariant does not hold. -/
theorem c1_counterexample :
    (find_matching_names
        (fun _ => LlmOutcome.returns (some "cluster-B") (some "svc-1"))
        (Except.ok [("cluster-A", ["svc-1"]), ("cluster-B", ["svc-2"])])
        0 ⟨[], none⟩ (some "b") (some "svc")).result
      = FMNResult.ok ⟨"success", .vStr "cluster-B", .vStr "svc-1"⟩ ∧
    "svc-1" ∉ (dlookup [("cluster-A", ["svc-1"]), ("cluster-B", ["svc-2"])]
        "cluster-B").getD [] := by
  exact ⟨by decide, by decide⟩

/-- C1 (amended): the resolver performs no membership check at all — a
matcher reply carrying a nonempty cluster name and a nonempty service name
is adopted verbatim as the result, so the membership invariant holds only
when the matcher's own output already satisfies it. -/
theorem c1_amended_no_membership_enforcement
    (llm : String → LlmOutcome) (cmap : Topology) (st : ClientState)
    (now : Int) (c s : Option String) (cl sv : String)
    (hmiss : cacheFind st.name_matching_cache (cacheKey c s) = none)
    (htopo : st.topo_cache = none)
    (hllm : llm (buildPrompt cmap c s) = .returns (some cl) (some sv))
    (hcl : cl ≠ "") (hsv : sv ≠ "") :
    (find_matching_names llm (Except.ok cmap) now st c s).result
      = FMNResult.ok ⟨"success", .vStr cl, .vStr sv⟩ := by
  rw [fmn_success_path llm cmap st now c s cl sv hmiss htopo hllm hcl hsv]

/-- Witness for C1 (amended) at a concrete inconsistent matcher reply. -/
theorem c1_amended_no_membership_enforcement_witness :
    (find_matching_names
        (fun _ => LlmOutcome.returns (some "cluster-B") (some "svc-1"))
        (Except.ok [("cluster-A", ["svc-1"])]) 0 ⟨[], none⟩
        none (some "svc")).result
      = FMNResult.ok ⟨"success", .vStr "cluster-B", .vStr "svc-1"⟩ :=
  c1_amended_no_membership_enforcement
    (fun _ => LlmOutcome.returns (some "cluster-B") (some "svc-1"))
    [("cluster-A", ["svc-1"])] ⟨[], none⟩ 0 none (some "svc")
    "cluster-B" "svc-1" rfl rfl rfl (by decide) (by decide)

/-- C2: at the spec's own repair-pass example — matcher reply
`{cluster_name: null, service_name: "svc-1"}` over topology
`{cluster-A: [svc-1, svc-2]}` — the code leaves `cluster_name` null rather
than adopting `cluster-A`: the repair line looks the service name up as a
key of the cluster-to-services dict (and would assign a service list, not a
cluster name, on a key collision), so the documented repair never happens. -/
theorem c2_repair_pass_failing_input :
    (find_matching_names (fun _ => LlmOutcome.returns none (some "svc-1"))
        (Except.ok [("cluster-A", ["svc-1", "svc-2"])]) 0 ⟨[], none⟩
        none (some "svc1")).result
      = FMNResult.ok ⟨"success", PyVal.vNone, PyVal.vStr "svc-1"⟩ ∧
    (find_matching_names (fun _ => LlmOutcome.returns none (some "svc-1"))
        (Except.ok [("cluster-A", ["svc-1", "svc-2"])]) 0 ⟨[], none⟩
        none (some "svc1")).result
      ≠ FMNResult.ok ⟨"success", PyVal.vStr "cluster-A", PyVal.vStr "svc-1"⟩ := by
  exact ⟨by decide, by decide⟩

/-- C3 counterexample: with the matcher raising, the returned result is
tagged `success` — not `fallback` — and nothing is stored in the resolution
cache. -/
theorem c3_counterexample :
    (find_matching_names (fun _ => LlmOutcome.raises)
        (Except.ok [("cluster-A", ["svc-1"])]) 0 ⟨[], none⟩
        (some "cluster-A") (some "svc")).result
      = FMNResult.ok ⟨"success", .vStr "cluster-A", .vStr "svc-1"⟩ ∧
    (find_matching_names (fun _ => LlmOutcome.raises)
        (Except.ok [("cluster-A", ["svc-1"])]) 0 ⟨[], none⟩
        (some "cluster-A") (some "svc")).state.name_matching_cache = [] := by
  exact ⟨by decide, by decide⟩

/-- C3 (amended): when the first semantic-matcher invocation raises,
`resolve` still returns a non-error result, but its status field is
`"success"` (the code never tags `"fallback"`), its fields are exactly
those computed by the heuristic fallback handler, and the result is NOT
stored in the resolution cache. -/
theorem c3_amended_fallback_success_uncached
    (llm : String → LlmOutcome) (cmap : Topology) (st : ClientState)
    (now : Int) (c s : Option String)
    (hmiss : cacheFind st.name_matching_cache (cacheKey c s) = none)
    (htopo : st.topo_cache = none)
    (hllm : llm (buildPrompt cmap c s) = .raises) :
    ∃ r : Response,
      fallbackHandler cmap c s ⟨"success", .vNone, .vNone⟩ = .ok r ∧
      (find_matching_names llm (Except.ok cmap) now st c s).result
        = FMNResult.ok r ∧
      r.status = "success" ∧
      (find_matching_names llm (Except.ok cmap) now st c s).state.name_matching_cache
        = st.name_matching_cache := by
  rcases fmn_first_raises llm cmap st now c s hmiss htopo hllm with ⟨r, hr, heq, hst⟩
  exact ⟨r, hr, by rw [heq], hst, by rw [heq]⟩

/-- Witness for C3 (amended) at a concrete raising matcher. -/
theorem c3_amended_fallback_success_uncached_witness :
    ∃ r : Response,
      fallbackHandler [("cluster-A", ["svc-1"])] (some "cluster-A") (some "svc")
          ⟨"success", .vNone, .vNone⟩ = .ok r ∧
      (find_matching_names (fun _ => LlmOutcome.raises)
          (Except.ok [("cluster-A", ["svc-1"])]) 0 ⟨[], none⟩
          (some "cluster-A") (some "svc")).result = FMNResult.ok r ∧
      r.status = "success" ∧
      (find_matching_names (fun _ => LlmOutcome.raises)
          (Except.ok [("cluster-A", ["svc-1"])]) 0 ⟨[], none⟩
          (some "cluster-A") (some "svc")).state.name_matching_cache = [] :=
  c3_amended_fallback_success_uncached (fun _ => LlmOutcome.raises)
    [("cluster-A", ["svc-1"])] ⟨[], none⟩ 0 (some "cluster-A") (some "svc")
    rfl rfl rfl

/-- C4 counterexample: with a matcher that raises, the fallback result is
not cached, so calling resolve twice with the identical pair invokes the
matcher twice — not at most once in total. -/
theorem c4_counterexample :
    (find_matching_names (fun _ => LlmOutcome.raises)
        (Except.ok [("cluster-A", ["svc-1"])]) 0 ⟨[], none⟩
        (some "c") (some "s")).llmCalls
    + (find_matching_names (fun _ => LlmOutcome.raises)
        (Except.ok [("cluster-A", ["svc-1"])]) 0
        (find_matching_names (fun _ => LlmOutcome.raises)
          (Except.ok [("cluster-A", ["svc-1"])]) 0 ⟨[], none⟩
          (some "c") (some "s")).state
        (some "c") (some "s")).llmCalls = 2 := by
  decide

/-- C4 (amended): resolution is memoized only when the matcher step
completes: a cache hit is answered from the cache with zero matcher and
zero upstream calls, and after a first call whose matcher reply carried
both names, the second identical call is such a hit; when the matcher step
raises, nothing is cached and a second call re-invokes the matcher. -/
theorem c4_amended_memoization :
    (∀ (llm : String → LlmOutcome) (upstream : Except String Topology)
        (now : Int) (st : ClientState) (c s : Option String) (r : Response),
        cacheFind st.name_matching_cache (cacheKey c s) = some r →
        find_matching_names llm upstream now st c s = ⟨.ok r, st, 0, 0⟩) ∧
    (∀ (llm : String → LlmOutcome) (cmap : Topology) (st : ClientState)
        (now now2 : Int) (upstream2 : Except String Topology)
        (c s : Option String) (cl sv : String),
        cacheFind st.name_matching_cache (cacheKey c s) = none →
        st.topo_cache = none →
        llm (buildPrompt cmap c s) = .returns (some cl) (some sv) →
        cl ≠ "" → sv ≠ "" →
        find_matching_names llm upstream2 now2
            (find_matching_names llm (Except.ok cmap) now st c s).state c s
          = ⟨.ok ⟨"success", .vStr cl, .vStr sv⟩,
             (find_matching_names llm (Except.ok cmap) now st c s).state,
             0, 0⟩) := by
  constructor
  · exact fmn_cache_hit
  · intro llm cmap st now now2 upstream2 c s cl sv hmiss htopo hllm hcl hsv
    have h1 := fmn_success_path llm cmap st now c s cl sv hmiss htopo hllm hcl hsv
    apply fmn_cache_hit
    rw [h1]
    exact cacheFind_append_self _ _ _ hmiss

/-- Witness for C4 (amended): a concrete cache hit and a concrete
first-call-then-hit pair. -/
theorem c4_amended_memoization_witness :
    find_matching_names (fun _ => LlmOutcome.raises) (Except.error "boom") 0
        ⟨[("a:b", ⟨"success", .vNone, .vNone⟩)], none⟩ (some "a") (some "b")
      = ⟨.ok ⟨"success", .vNone, .vNone⟩,
         ⟨[("a:b", ⟨"success", .vNone, .vNone⟩)], none⟩, 0, 0⟩ ∧
    find_matching_names (fun _ => LlmOutcome.returns (some "A") (some "B"))
        (Except.error "x") 5
        (find_matching_names (fun _ => LlmOutcome.returns (some "A") (some "B"))
          (Except.ok [("A", ["B"])]) 0 ⟨[], none⟩ (some "c") (some "s")).state
        (some "c") (some "s")
      = ⟨.ok ⟨"success", .vStr "A", .vStr "B"⟩,
         (find_matching_names (fun _ => LlmOutcome.returns (some "A") (some "B"))
           (Except.ok [("A", ["B"])]) 0 ⟨[], none⟩ (some "c") (some "s")).state,
         0, 0⟩ :=
  ⟨c4_amended_memoization.1 (fun _ => LlmOutcome.raises) (Except.error "boom")
      0 ⟨[("a:b", ⟨"success", .vNone, .vNone⟩)], none⟩ (some "a") (some "b")
      ⟨"success", .vNone, .vNone⟩ rfl,
   c4_amended_memoization.2 (fun _ => LlmOutcome.returns (some "A") (some "B"))
      [("A", ["B"])] ⟨[], none⟩ 0 5 (Except.error "x") (some "c") (some "s")
      "A" "B" rfl rfl rfl (by decide) (by decide)⟩

/-- C6: a topology snapshot strictly younger than the 300-second TTL is
returned unchanged with no upstream call, and in the two-resolve scenario
(empty caches, distinct uncached keys, second call within the TTL window)
list-clusters fires exactly once over both calls. -/
theorem c6_ttl_skip_refresh :
    (∀ (upstream : Except String Topology) (d : Topology) (ts now : Int),
        now - ts < cacheTtl →
        get_all_clusters_and_services upstream now (some (d, ts))
          = (Except.ok d, some (d, ts), 0)) ∧
    (∀ (llm : String → LlmOutcome) (topo : Topology)
        (upstream2 : Except String Topology)
        (c1 s1 c2 s2 : Option String) (t1 t2 : Int),
        cacheKey c1 s1 ≠ cacheKey c2 s2 →
        t2 - t1 < cacheTtl →
        (find_matching_names llm (Except.ok topo) t1 ⟨[], none⟩ c1 s1).listClustersCalls
          + (find_matching_names llm upstream2 t2
              (find_matching_names llm (Except.ok topo) t1 ⟨[], none⟩ c1 s1).state
              c2 s2).listClustersCalls = 1) := by
  constructor
  · intro upstream d ts now h
    simp [get_all_clusters_and_services, h]
  · intro llm topo upstream2 c1 s1 c2 s2 t1 t2 hne httl
    have hmiss1 : cacheFind (([] : List (String × Response))) (cacheKey c1 s1)
        = none := rfl
    obtain ⟨hlc1, htc1, hcache1⟩ :=
      fmn_miss_shape llm (Except.ok topo) t1 ⟨[], none⟩ c1 s1 hmiss1
    have hga1 : get_all_clusters_and_services (Except.ok topo) t1
        (ClientState.mk [] none).topo_cache = (Except.ok topo, some (topo, t1), 1) := rfl
    rw [hga1] at hlc1 htc1
    have hmiss2 : cacheFind
        (find_matching_names llm (Except.ok topo) t1 ⟨[], none⟩ c1 s1).state.name_matching_cache
        (cacheKey c2 s2) = none := by
      rcases hcache1 with h | ⟨r, h⟩
      · rw [h]; rfl
      · rw [h]
        simpa using cacheFind_singleton_ne (cacheKey c1 s1) (cacheKey c2 s2) r hne
    obtain ⟨hlc2, htc2, hcache2⟩ :=
      fmn_miss_shape llm upstream2 t2
        (find_matching_names llm (Except.ok topo) t1 ⟨[], none⟩ c1 s1).state c2 s2 hmiss2
    rw [htc1] at hlc2
    have hga2 : get_all_clusters_and_services upstream2 t2 (some (topo, t1))
        = (Except.ok topo, some (topo, t1), 0) := by
      simp [get_all_clusters_and_services, httl]
    rw [hga2] at hlc2
    rw [hlc1, hlc2]
    rfl

/-- Witness for C6 at concrete inputs: a fresh-snapshot hit and the
two-call scenario with distinct keys inside the TTL window. -/
theorem c6_ttl_skip_refresh_witness :
    get_all_clusters_and_services (Except.error "z") 5
        (some ([("A", ["B"])], 0))
      = (Except.ok [("A", ["B"])], some ([("A", ["B"])], 0), 0) ∧
    (find_matching_names (fun _ => LlmOutcome.raises)
        (Except.ok [("A", ["B"])]) 0 ⟨[], none⟩ (some "x") none).listClustersCalls
      + (find_matching_names (fun _ => LlmOutcome.raises) (Except.error "e") 10
          (find_matching_names (fun _ => LlmOutcome.raises)
            (Except.ok [("A", ["B"])]) 0 ⟨[], none⟩ (some "x") none).state
          (some "y") none).listClustersCalls = 1 :=
  ⟨c6_ttl_skip_refresh.1 (Except.error "z") [("A", ["B"])] 0 5 (by decide),
   c6_ttl_skip_refresh.2 (fun _ => LlmOutcome.raises) [("A", ["B"])]
     (Except.error "e") (some "x") none (some "y") none 0 10
     (by decide) (by decide)⟩

/-- C7: when the topology must be refreshed (no snapshot, or one at least
TTL old) and the upstream fails, the resolver returns the structured
refresh error unchanged, the topology cache keeps its previous contents
(no partial write), and nothing is stored in the resolution cache. -/
theorem c7_upstream_error_propagation
    (llm : String → LlmOutcome) (now : Int) (st : ClientState)
    (c s : Option String) (m : String)
    (hmiss : cacheFind st.name_matching_cache (cacheKey c s) = none)
    (hstale : st.topo_cache = none ∨
      ∃ d ts, st.topo_cache = some (d, ts) ∧ ¬ now - ts < cacheTtl) :
    (find_matching_names llm (Except.error m) now st c s).result
        = FMNResult.upstreamError ("Failed to get clusters and services: " ++ m) ∧
    (find_matching_names llm (Except.error m) now st c s).state.topo_cache
        = st.topo_cache ∧
    (find_matching_names llm (Except.error m) now st c s).state.name_matching_cache
        = st.name_matching_cache := by
  have hga : get_all_clusters_and_services (Except.error m) now st.topo_cache
      = (Except.error ("Failed to get clusters and services: " ++ m),
         st.topo_cache, 1) := by
    rcases hstale with h | ⟨d, ts, h, hts⟩
    · rw [h]; rfl
    · rw [h]; simp [get_all_clusters_and_services, hts]
  simp only [find_matching_names, hmiss, hga]
  exact ⟨trivial, trivial, trivial⟩

/-- Witness for C7 with an empty topology cache and a failing upstream. -/
theorem c7_upstream_error_propagation_witness :
    (find_matching_names (fun _ => LlmOutcome.raises) (Except.error "boom") 0
        ⟨[], none⟩ none (some "svc")).result
        = FMNResult.upstreamError "Failed to get clusters and services: boom" ∧
    (find_matching_names (fun _ => LlmOutcome.raises) (Except.error "boom") 0
        ⟨[], none⟩ none (some "svc")).state.topo_cache = none ∧
    (find_matching_names (fun _ => LlmOutcome.raises) (Except.error "boom") 0
        ⟨[], none⟩ none (some "svc")).state.name_matching_cache = [] :=
  c7_upstream_error_propagation (fun _ => LlmOutcome.raises) 0 ⟨[], none⟩
    none (some "svc") "boom" rfl (Or.inl rfl)

set_option maxRecDepth 20000 in
/-- C8 counterexample: the prompt the resolver actually builds contains no
denylist instruction — at a concrete topology and query, neither the word
"sandbox" nor "deprioritized" occurs anywhere in the prompt. -/
theorem c8_counterexample :
    strContainsSub (buildPrompt [("prod-cluster", ["api-service"])]
        (some "prod") (some "api")) "sandbox" = false ∧
    strContainsSub (buildPrompt [("prod-cluster", ["api-service"])]
        (some "prod") (some "api")) "deprioritized" = false := by
  exact ⟨by decide, by decide⟩

set_option maxRecDepth 20000 in
/-- C8 (amended): every prompt the resolver builds ends with the fixed
instruction block, which contains the membership instruction ("The service
name should be part of the cluster name you are finding.") but no
deprioritization/denylist instruction. -/
theorem c8_amended_membership_instruction (cmap : Topology)
    (c s : Option String) :
    strContainsSub (buildPrompt cmap c s)
      "The service name should be part of the cluster name you are finding."
      = true := by
  unfold buildPrompt
  apply strContainsSub_append_right
  decide

/-- C9: the resolution-cache key renders an absent cluster field as the
literal text `None`, so the key for (absent, s) coincides with the key for
(the literal string "None", s); consequently once (absent, s) is cached, a
query for ("None", s) is answered from the cache with no upstream or
matcher call. -/
theorem c9_cache_key_conflates_none :
    (∀ s : String, cacheKey none (some s) = cacheKey (some "None") (some s)) ∧
    (∀ (llm : String → LlmOutcome) (upstream : Except String Topology)
        (now : Int) (st : ClientState) (s : String) (r : Response),
        cacheFind st.name_matching_cache (cacheKey none (some s)) = some r →
        find_matching_names llm upstream now st (some "None") (some s)
          = ⟨.ok r, st, 0, 0⟩) := by
  constructor
  · intro s; rfl
  · intro llm upstream now st s r h
    exact fmn_cache_hit llm upstream now st (some "None") (some s) r h

/-- Witness for C9 at the concrete service string "svc". -/
theorem c9_cache_key_conflates_none_witness :
    cacheKey none (some "svc") = cacheKey (some "None") (some "svc") ∧
    find_matching_names (fun _ => LlmOutcome.raises) (Except.error "e") 0
        ⟨[("None:svc", ⟨"success", .vNone, .vNone⟩)], none⟩
        (some "None") (some "svc")
      = ⟨.ok ⟨"success", .vNone, .vNone⟩,
         ⟨[("None:svc", ⟨"success", .vNone, .vNone⟩)], none⟩, 0, 0⟩ :=
  ⟨c9_cache_key_conflates_none.1 "svc",
   c9_cache_key_conflates_none.2 (fun _ => LlmOutcome.raises) (Except.error "e")
     0 ⟨[("None:svc", ⟨"success", .vNone, .vNone⟩)], none⟩ "svc"
     ⟨"success", .vNone, .vNone⟩ rfl⟩

/-- C10: in the heuristic fallback path (first matcher invocation raises),
when a service query was supplied but no cluster name was resolved (no
cluster query, or the cluster heuristic found nothing), the service
heuristic searches the list of CLUSTER names, so the returned service name
is either null or the name of a cluster of the topology. -/
theorem c10_fallback_service_candidates_are_clusters
    (llm : String → LlmOutcome) (cmap : Topology) (st : ClientState)
    (now : Int) (c s : Option String)
    (hmiss : cacheFind st.name_matching_cache (cacheKey c s) = none)
    (htopo : st.topo_cache = none)
    (hllm : llm (buildPrompt cmap c s) = .raises)
    (hs : optTruthy s = true)
    (hnc : optTruthy c = false ∨
      find_best_match_basic (pyShow c) (topoKeys cmap) = none) :
    ∃ r : Response,
      (find_matching_names llm (Except.ok cmap) now st c s).result
        = FMNResult.ok r ∧
      (r.service_name = PyVal.vNone ∨
        ∃ k, r.service_name = PyVal.vStr k ∧ k ∈ topoKeys cmap) := by
  have hfb : fallbackHandler cmap c s ⟨"success", .vNone, .vNone⟩
      = .ok ⟨"success", PyVal.vNone,
          toPyVal (find_best_match_basic (pyShow s) (topoKeys cmap))⟩ := by
    rcases hnc with h | h
    · simp only [fallbackHandler, h, Bool.false_eq_true, if_false, hs, if_true]
      simp [PyVal.truthy]
    · by_cases hc : optTruthy c = true
      · simp only [fallbackHandler, hc, if_true, h, toPyVal, hs]
        simp [PyVal.truthy]
      · simp only [fallbackHandler, hc, Bool.false_eq_true, if_false, hs, if_true]
        simp [PyVal.truthy]
  rcases fmn_first_raises llm cmap st now c s hmiss htopo hllm with ⟨r, hr, heq, _⟩
  rw [hfb] at hr
  injection hr with hr'
  refine ⟨r, by rw [heq], ?_⟩
  rw [← hr']
  cases hbm : find_best_match_basic (pyShow s) (topoKeys cmap) with
  | none => exact Or.inl rfl
  | some k => exact Or.inr ⟨k, rfl, find_best_match_basic_mem hbm⟩

/-- Witness for C10: with no cluster query and a service query "alph" over
topology `alpha-cluster ↦ [x]`, the fallback returns the CLUSTER name
`alpha-cluster` in the service field. -/
theorem c10_fallback_service_candidates_are_clusters_witness :
    ∃ r : Response,
      (find_matching_names (fun _ => LlmOutcome.raises)
          (Except.ok [("alpha-cluster", ["x"])]) 0 ⟨[], none⟩
          none (some "alph")).result = FMNResult.ok r ∧
      (r.service_name = PyVal.vNone ∨
        ∃ k, r.service_name = PyVal.vStr k ∧
          k ∈ topoKeys [("alpha-cluster", ["x"])]) :=
  c10_fallback_service_candidates_are_clusters (fun _ => LlmOutcome.raises)
    [("alpha-cluster", ["x"])] ⟨[], none⟩ 0 none (some "alph")
    rfl rfl rfl (by decide) (Or.inl rfl)

end EcsMcp
